import Mathlib

/-!
Shallow embedding of `inookulate.py`, a client for the Barnes & Noble NOOK
cloud service.  Network exchanges are modelled by passing the (already
received) response as an argument; the XML responses are modelled by a small
element tree mirroring `xml.etree.ElementTree`, and Python exceptions by an
explicit error type threaded through `Except`.
-/

namespace Inookulate

/-- An XML element, mirroring `xml.etree.ElementTree.Element`:
a tag, an attribute list, an optional text payload, and child elements. -/
inductive Xml : Type where
  | mk : String → List (String × String) → Option String → List Xml → Xml
deriving Repr

def Xml.tag : Xml → String
  | .mk t _ _ _ => t

def Xml.attrs : Xml → List (String × String)
  | .mk _ a _ _ => a

def Xml.text : Xml → Option String
  | .mk _ _ t _ => t

def Xml.children : Xml → List Xml
  | .mk _ _ _ c => c

/-- `element.get(name)`: look up an attribute, `none` when absent. -/
def Xml.get (e : Xml) (name : String) : Option String :=
  (e.attrs.find? (fun p => p.1 == name)).map (fun p => p.2)

/-- One step of an ElementTree path: a child tag, optionally with an
`[@attr='value']` test, as used by the XPath subset in the source. -/
structure Step where
  tag : String
  attrTest : Option (String × String)

def stepMatches (s : Step) (e : Xml) : Bool :=
  e.tag == s.tag &&
    (match s.attrTest with
     | none => true
     | some (a, v) => e.get a == some v)

/-- `element.findall(path)` for the `./a/b[@x='y']` path subset used by the
source: all elements reached by following the child steps, in document
order. -/
def Xml.findallSteps : Xml → List Step → List Xml
  | e, [] => [e]
  | e, s :: rest =>
      ((e.children.filter (stepMatches s)).map (fun c => c.findallSteps rest)).flatten

/-- `element.find(path)`: first match or `none`. -/
def Xml.findStep (e : Xml) (path : List Step) : Option Xml :=
  (e.findallSteps path).head?

/-- `./stateData/data[@name='signedIn']` (login response). -/
def signedInPath : List Step := [⟨"stateData", none⟩, ⟨"data", some ("name", "signedIn")⟩]

/-- `./errors/error[@id='300_FEEngine']` (cchash probe failure marker). -/
def errorPath : List Step := [⟨"errors", none⟩, ⟨"error", some ("id", "300_FEEngine")⟩]

/-- `./payMethod/ccHash` (cchash probe success payload). -/
def cchashPath : List Step := [⟨"payMethod", none⟩, ⟨"ccHash", none⟩]

/-- `./SyncBody/Sync/Add/Item/Data/LockerItem` (library sync entries). -/
def bookPath : List Step :=
  [⟨"SyncBody", none⟩, ⟨"Sync", none⟩, ⟨"Add", none⟩, ⟨"Item", none⟩,
   ⟨"Data", none⟩, ⟨"LockerItem", none⟩]

/-- `./ProductData/product/titles/title` (title inside a LockerItem). -/
def titlePath : List Step :=
  [⟨"ProductData", none⟩, ⟨"product", none⟩, ⟨"titles", none⟩, ⟨"title", none⟩]

/-- `./Products/item` (license response item). -/
def itemPath : List Step := [⟨"Products", none⟩, ⟨"item", none⟩]

/-- Python exceptions that can escape the modelled functions.
`attributeError`, `typeError`, `valueError` and `indexError` are the
unguarded crashes on malformed responses; `osError` stands for a
transport-level failure (`urllib.error.URLError` is a subclass of
`OSError`) or a missing credential file. -/
inductive PyExc : Type where
  | notAuthenticated
  | serverError (msg : Option String)
  | attributeError
  | typeError
  | valueError
  | indexError
  | osError
deriving DecidableEq, Repr

def isSpace (c : Char) : Bool :=
  c = ' ' || c = '\t' || c = '\n' || c = '\r'

/-- Accumulate a non-negative decimal value; fails on a non-digit. -/
def parseDigitsAux : List Char → Nat → Option Nat
  | [], acc => some acc
  | c :: cs, acc =>
      if '0' ≤ c && c ≤ '9' then parseDigitsAux cs (acc * 10 + (c.toNat - '0'.toNat))
      else none

/-- Models Python `int(s)` on the optionally signed decimal strings the
protocol sends: surrounding whitespace is stripped, an optional `+`/`-`
sign is followed by at least one digit. -/
def pyInt (s : String) : Option Int :=
  let cs := ((s.toList.dropWhile isSpace).reverse.dropWhile isSpace).reverse
  match cs with
  | [] => none
  | '-' :: rest =>
      match rest with
      | [] => none
      | _ => (parseDigitsAux rest 0).map (fun n => -(n : Int))
  | '+' :: rest =>
      match rest with
      | [] => none
      | _ => (parseDigitsAux rest 0).map (fun n => (n : Int))
  | rest => (parseDigitsAux rest 0).map (fun n => (n : Int))

/-- In-memory part of `AuthenticationToken`: the `authenticated` flag and
the cookie jar (cookies abstracted as opaque strings). -/
structure Token where
  authenticated : Bool
  cookies : List String
deriving DecidableEq, Repr

/-- A token together with the persisted cookie file: `storeFile = none`
models an absent or unreadable file (`cookies.load` raises `OSError`). -/
structure World where
  tok : Token
  storeFile : Option (List String)
deriving DecidableEq, Repr

/-- Outcome of the network exchange of the credit-card-hash probe: either a
parsed XML response, or a transport failure before any response. -/
inductive ProbeOutcome : Type where
  | response (root : Xml)
  | transportFailure

/-- `get_cchash`: raises `NotAuthenticatedError` when the response contains
the node `./errors/error[@id='300_FEEngine']`; otherwise returns the text
of `./payMethod/ccHash` (an unguarded `AttributeError` when that node is
missing).  A transport failure surfaces as `OSError`. -/
def get_cchash : ProbeOutcome → Except PyExc (Option String)
  | .transportFailure => .error .osError
  | .response root =>
      if (root.findStep errorPath).isSome then .error .notAuthenticated
      else
        match root.findStep cchashPath with
        | none => .error .attributeError
        | some n => .ok n.text

/-- The state from which `update_state` issues the probe: the method sets
`self.authenticated = True` before the `try` block around `get_cchash`. -/
def update_state_preprobe (tok : Token) : Token :=
  { tok with authenticated := true }

/-- `AuthenticationToken.update_state`: optimistically set the flag, probe
via `get_cchash`, clear the flag when the probe raises
`NotAuthenticatedError`, and return the flag.  Any other exception from the
probe propagates (with the flag already set). -/
def update_state (tok : Token) (o : ProbeOutcome) : Token × Except PyExc Bool :=
  let tok1 := update_state_preprobe tok
  match get_cchash o with
  | .ok _ => (tok1, .ok tok1.authenticated)
  | .error .notAuthenticated =>
      let tok2 := { tok1 with authenticated := false }
      (tok2, .ok tok2.authenticated)
  | .error e => (tok1, .error e)

/-- `update_state` lifted to the world holding the persisted file (the
method touches neither the cookie jar nor the file). -/
def update_stateW (w : World) (o : ProbeOutcome) : World × Except PyExc Bool :=
  let r := update_state w.tok o
  ({ w with tok := r.1 }, r.2)

/-- `AuthenticationToken.save`: write the jar to the persisted file. -/
def save (w : World) : World :=
  { w with storeFile := some w.tok.cookies }

/-- `AuthenticationToken.load`: try to load the cookie file and run
`update_state`; an `OSError` from either (missing file, or transport
failure inside the probe) is swallowed; other exceptions propagate.
Returns the `authenticated` flag. -/
def load (w : World) (o : ProbeOutcome) : Except PyExc (World × Bool) :=
  match w.storeFile with
  | none => .ok (w, w.tok.authenticated)
  | some cs =>
      let w1 : World := { w with tok := { w.tok with cookies := w.tok.cookies ++ cs } }
      let r := update_stateW w1 o
      match r.2 with
      | .ok _ => .ok (r.1, r.1.tok.authenticated)
      | .error .osError => .ok (r.1, r.1.tok.authenticated)
      | .error e => .error e

/-- `AuthenticationToken.__init__`: start unauthenticated with an empty jar
over the given file, then `load`. -/
def AuthenticationToken_init (storeFile : Option (List String)) (o : ProbeOutcome) :
    Except PyExc World :=
  (load { tok := { authenticated := false, cookies := [] }, storeFile := storeFile } o).map
    (fun r => r.1)

/-- Did the probe confirm that the session is valid (i.e. did `get_cchash`
return normally)? -/
def probeConfirmsValidity (o : ProbeOutcome) : Bool :=
  match get_cchash o with
  | .ok _ => true
  | .error _ => false

/-- A login exchange's response: the parsed XML body plus the session
cookies carried by the HTTP response (consumed by `extract_cookies`). -/
structure LoginResponse where
  root : Xml
  newCookies : List String

/-- `AuthenticationToken.authenticate`: parse the `signedIn` flag; on
success set the flag, merge the response cookies into the jar, and persist
the store; on failure change nothing.  Returns the parsed status. -/
def authenticate (w : World) (resp : LoginResponse) : Except PyExc (World × Bool) :=
  match resp.root.findStep signedInPath with
  | none => .error .attributeError
  | some node =>
      match node.text with
      | none => .error .typeError
      | some s =>
          match pyInt s with
          | none => .error .valueError
          | some n =>
              if n ≠ 0 then
                let w1 : World :=
                  { w with
                    tok := { authenticated := true,
                             cookies := w.tok.cookies ++ resp.newCookies } }
                .ok (save w1, true)
              else
                .ok (w, false)

/-- A Python `dict` as an insertion-ordered association list with distinct
keys: assignment `d[k] = v` replaces the value in place when the key is
present, otherwise appends a new entry. -/
def dictInsert (d : List (Int × Option String)) (k : Int) (v : Option String) :
    List (Int × Option String) :=
  if d.any (fun p => p.1 == k) then
    d.map (fun p => if p.1 == k then (k, v) else p)
  else d ++ [(k, v)]

/-- Dictionary lookup. -/
def dictLookup (d : List (Int × Option String)) (k : Int) : Option (Option String) :=
  (d.find? (fun p => p.1 == k)).map (fun p => p.2)

/-- Parse one `LockerItem` element: `int(book.get('DeliveryId'))` (a
`TypeError` when the attribute is absent, a `ValueError` when it is not an
integer) and the text of `./ProductData/product/titles/title` (an
`AttributeError` when the node is absent). -/
def parseLockerItem (e : Xml) : Except PyExc (Int × Option String) :=
  match e.get "DeliveryId" with
  | none => .error .typeError
  | some s =>
      match pyInt s with
      | none => .error .valueError
      | some i =>
          match e.findStep titlePath with
          | none => .error .attributeError
          | some t => .ok (i, t.text)

/-- The `for book in root.findall(book_path)` loop of `get_library`:
parse each entry and assign `books[id] = title`. -/
def buildLibrary : List (Int × Option String) → List Xml →
    Except PyExc (List (Int × Option String))
  | books, [] => .ok books
  | books, e :: rest =>
      match parseLockerItem e with
      | .error ex => .error ex
      | .ok p => buildLibrary (dictInsert books p.1 p.2) rest

/-- `get_library`: requires `token.authenticated`, then builds the
delivery-id → title dictionary from the sync response. -/
def get_library (tok : Token) (root : Xml) : Except PyExc (List (Int × Option String)) :=
  if !tok.authenticated then .error .notAuthenticated
  else buildLibrary [] (root.findallSteps bookPath)

/-- The `License` object: the three string fields assigned from node texts
(each `none` when the node carries no text). -/
structure License where
  download_url : Option String
  info_url : Option String
  rights_xml : Option String
deriving DecidableEq, Repr

/-- `get_license`: requires `token.authenticated`; finds `./Products/item`
and its `./error` child (unguarded `AttributeError` when either is
missing); raises `ServerError(errorDetails)` whenever the `errorDetails`
attribute differs from the empty string — including when the attribute is
absent (`None != ""` is true in Python); otherwise reads the three license
fields (`AttributeError` when a field node is missing). -/
def get_license (tok : Token) (root : Xml) : Except PyExc License :=
  if !tok.authenticated then .error .notAuthenticated
  else
    match root.findStep itemPath with
    | none => .error .attributeError
    | some item =>
        match item.findStep [⟨"error", none⟩] with
        | none => .error .attributeError
        | some errNode =>
            let error_msg := errNode.get "errorDetails"
            if error_msg ≠ some "" then .error (.serverError error_msg)
            else
              match item.findStep [⟨"eBookUrl", none⟩],
                    item.findStep [⟨"infoDocUrl", none⟩],
                    item.findStep [⟨"license", none⟩] with
              | some u, some i, some l => .ok ⟨u.text, i.text, l.text⟩
              | none, _, _ => .error .attributeError
              | some _, none, _ => .error .attributeError
              | some _, some _, none => .error .attributeError

/-- `save_file`: requires `token.authenticated`; the streamed write itself
is recorded by `download_book`. -/
def save_file (tok : Token) : Except PyExc Unit :=
  if !tok.authenticated then .error .notAuthenticated else .ok ()

/-- Drop characters up to and including the first `://` occurrence;
`none` when the string has no such occurrence. -/
def dropThroughSchemeSep : List Char → Option (List Char)
  | [] => none
  | ':' :: '/' :: '/' :: rest => some rest
  | _ :: rest => dropThroughSchemeSep rest

/-- Models `urllib.parse.urlparse(url).path` for the hierarchical URLs the
service uses: drop the fragment and query, and when the URL has a
`scheme://netloc` part, keep only the part of what follows from the first
`/` on (empty when there is none). -/
def urlparse_path (url : String) : String :=
  let cs := (url.toList.takeWhile (fun c => c ≠ '#')).takeWhile (fun c => c ≠ '?')
  match dropThroughSchemeSep cs with
  | none => String.mk cs
  | some after => String.mk (after.dropWhile (fun c => c ≠ '/'))

/-- Python `s.rsplit('.', 1)`: split once from the right, a singleton when
the string has no `.` at all. -/
def rsplit_dot (s : String) : List String :=
  let rs := s.toList.reverse
  if rs.contains '.' then
    [String.mk (((rs.dropWhile (fun c => c ≠ '.')).drop 1).reverse),
     String.mk ((rs.takeWhile (fun c => c ≠ '.')).reverse)]
  else [s]

/-- A zip archive as its ordered member list (name, bytes); member bytes
are modelled as the decoded string. -/
def namelist (z : List (String × String)) : List String :=
  z.map (fun m => m.1)

/-- `ZipFile.writestr` in append mode: a new member is appended at the end
(even when a member of the same name already exists). -/
def writestr (z : List (String × String)) (name data : String) :
    List (String × String) :=
  z ++ [(name, data)]

/-- The rights-injection step of `download_book` (the `with zipfile`
block): when the archive contains `META-INF/encryption.xml`, append a
member `META-INF/rights.xml` holding the license's rights manifest;
otherwise leave the archive alone. -/
def inject_rights (z : List (String × String)) (rights : String) :
    List (String × String) :=
  if (namelist z).contains "META-INF/encryption.xml" then
    writestr z "META-INF/rights.xml" rights
  else z

/-- What a `download_book` call did: the file it wrote (path and final
content), if any, and what the call returned (`Except` for a raised
exception; the payload is the Python return value, `none` for `None`). -/
structure DownloadOutcome where
  written : Option (String × List (String × String))
  result : Except PyExc (Option String)
deriving Repr

/-- `download_book`: resolve the license, derive the format from the
download URL's path extension, save the binary at `'{id}.{format}'`, and
for epub archives run the rights-injection step.  Every non-raising path
executes a bare `return` or falls off the end, so the Python return value
is always `None`.  `content` is the payload the download URL serves,
viewed as its member list when opened as a zip archive. -/
def download_book (tok : Token) (id : Int) (licRoot : Xml)
    (content : List (String × String)) : DownloadOutcome :=
  match get_license tok licRoot with
  | .error e => ⟨none, .error e⟩
  | .ok lic =>
      match lic.download_url with
      | none => ⟨none, .error .typeError⟩
      | some url =>
          match rsplit_dot (urlparse_path url) with
          | [_, format] =>
              let path := toString id ++ "." ++ format
              match save_file tok with
              | .error e => ⟨none, .error e⟩
              | .ok _ =>
                  if format ≠ "epub" then ⟨some (path, content), .ok none⟩
                  else
                    match lic.rights_xml with
                    | none => ⟨some (path, content), .error .typeError⟩
                    | some rx => ⟨some (path, inject_rights content rx), .ok none⟩
          | _ => ⟨none, .error .indexError⟩

/-- The `while not token.authenticated` loop of
`cli_authenticate_interactive`, driven by the list of login responses the
successive attempts would receive: `.ok (some w)` when the loop exits,
`.ok none` when the attempts are exhausted with the loop still running. -/
def cli_auth_loop : World → List LoginResponse → Except PyExc (Option World)
  | w, [] => if w.tok.authenticated then .ok (some w) else .ok none
  | w, resp :: rest =>
      if w.tok.authenticated then .ok (some w)
      else
        match authenticate w resp with
        | .error e => .error e
        | .ok r => cli_auth_loop r.1 rest

/-- `cli_authenticate_interactive`: clear the flag, then loop on
`authenticate` until it succeeds. -/
def cli_authenticate_interactive (w : World) (resps : List LoginResponse) :
    Except PyExc (Option World) :=
  cli_auth_loop { w with tok := { w.tok with authenticated := false } } resps

/-- The gate in `cli_main` ahead of the `library`, `download` and `cchash`
operations: pass an authenticated session straight through; otherwise exit
in script mode (`.ok none`) or run the interactive login flow. -/
def cli_require_auth (w : World) (script : Bool) (resps : List LoginResponse) :
    Except PyExc (Option World) :=
  if w.tok.authenticated then .ok (some w)
  else if script then .ok none
  else cli_authenticate_interactive w resps

/-! ### Concrete response fixtures used by witnesses and counterexamples -/

/-- A cchash probe response carrying the `300_FEEngine` error node. -/
def cchashErrResp : Xml :=
  .mk "response" [] none
    [.mk "errors" [] none [.mk "error" [("id", "300_FEEngine")] none []]]

/-- A successful cchash probe response. -/
def cchashOkResp : Xml :=
  .mk "response" [] none
    [.mk "payMethod" [] none [.mk "ccHash" [] (some "aGFzaA==") []]]

/-- A successful license response whose download URL ends in `.epub`. -/
def licRootOk : Xml :=
  .mk "response" [] none
    [.mk "Products" [] none
      [.mk "item" [] none
        [.mk "error" [("errorDetails", "")] none [],
         .mk "eBookUrl" [] (some "https://edl.bn.com/delivery/book.epub?x=1") [],
         .mk "infoDocUrl" [] (some "https://edl.bn.com/info") [],
         .mk "license" [] (some "<rights/>") []]]]

/-- The error node of `licRootErr`. -/
def licErrNode : Xml := .mk "error" [("errorDetails", "Title not available")] none []

/-- The item node of `licRootErr`. -/
def licItemErr : Xml := .mk "item" [] none [licErrNode]

/-- A license response carrying the error message `Title not available`. -/
def licRootErr : Xml :=
  .mk "response" [] none [.mk "Products" [] none [licItemErr]]

/-- The attribute-less error node of `licRootNoAttr`. -/
def licBareErrNode : Xml := .mk "error" [] none []

/-- The item node of `licRootNoAttr`. -/
def licItemNoAttr : Xml := .mk "item" [] none [licBareErrNode]

/-- A license response whose error node lacks the `errorDetails` attribute. -/
def licRootNoAttr : Xml :=
  .mk "response" [] none [.mk "Products" [] none [licItemNoAttr]]

/-- One `LockerItem` sync entry. -/
def lockerItem (id title : String) : Xml :=
  .mk "LockerItem" [("DeliveryId", id)] none
    [.mk "ProductData" [] none
      [.mk "product" [] none
        [.mk "titles" [] none [.mk "title" [] (some title) []]]]]

/-- A sync response with three entries, the delivery id 100 repeated. -/
def syncRoot : Xml :=
  .mk "SyncML" [] none
    [.mk "SyncBody" [] none
      [.mk "Sync" [] none
        [.mk "Add" [] none
          [.mk "Item" [] none
            [.mk "Data" [] none
              [lockerItem "100" "Apple", lockerItem "200" "banana",
               lockerItem "100" "Apple2"]]]]]]

/-- The parses of `syncRoot`'s three entries. -/
def syncPairs : List (Int × Option String) :=
  [(100, some "Apple"), (200, some "banana"), (100, some "Apple2")]

/-- The `signedIn` data node of `loginFail`. -/
def loginFailNode : Xml := .mk "data" [("name", "signedIn")] (some "0") []

/-- A login response whose `signedIn` flag is `"0"`. -/
def loginFail : LoginResponse :=
  ⟨.mk "r" [] none [.mk "stateData" [] none [loginFailNode]], ["sess"]⟩

/-! ### Dictionary lemmas (Python `dict` assignment and lookup) -/

theorem find?_pair_cons_pos (a : Int × Option String) (l : List (Int × Option String))
    (k : Int) (h : (a.1 == k) = true) :
    (a :: l).find? (fun p => p.1 == k) = some a :=
  List.find?_cons_of_pos l h

theorem find?_pair_cons_neg (a : Int × Option String) (l : List (Int × Option String))
    (k : Int) (h : (a.1 == k) = false) :
    (a :: l).find? (fun p => p.1 == k) = l.find? (fun p => p.1 == k) :=
  List.find?_cons_of_neg l (by simp [h])

theorem find?_map_update_self (d : List (Int × Option String)) (k : Int) (v : Option String)
    (h : d.any (fun p => p.1 == k) = true) :
    (d.map (fun p => if p.1 == k then (k, v) else p)).find? (fun p => p.1 == k) =
      some (k, v) := by
  induction d with
  | nil => simp at h
  | cons a rest ih =>
      simp only [List.map_cons]
      by_cases hp : (a.1 == k) = true
      · rw [if_pos hp, find?_pair_cons_pos _ _ _ (beq_self_eq_true k)]
      · have h' : rest.any (fun q => q.1 == k) = true := by
          rcases List.any_eq_true.mp h with ⟨x, hx, hxk⟩
          rcases List.mem_cons.mp hx with rfl | hx'
          · exact absurd hxk hp
          · exact List.any_eq_true.mpr ⟨x, hx', hxk⟩
        rw [if_neg hp, find?_pair_cons_neg _ _ _ (by simpa using hp)]
        exact ih h'

theorem find?_map_update_other (d : List (Int × Option String)) (k k' : Int)
    (v : Option String) (hne : k' ≠ k) :
    (d.map (fun p => if p.1 == k then (k, v) else p)).find? (fun p => p.1 == k') =
      d.find? (fun p => p.1 == k') := by
  induction d with
  | nil => rfl
  | cons a rest ih =>
      simp only [List.map_cons]
      by_cases hp : (a.1 == k) = true
      · have ha : a.1 = k := by simpa using hp
        have h1 : ((k, v).1 == k') = false := by
          simp only [beq_eq_false_iff_ne, ne_eq]
          exact fun h => hne h.symm
        have h2 : (a.1 == k') = false := by
          rw [ha]
          exact h1
        rw [if_pos hp, find?_pair_cons_neg _ _ _ h1, find?_pair_cons_neg _ _ _ h2]
        exact ih
      · rw [if_neg hp]
        by_cases hq : (a.1 == k') = true
        · rw [find?_pair_cons_pos _ _ _ hq, find?_pair_cons_pos _ _ _ hq]
        · rw [find?_pair_cons_neg _ _ _ (by simpa using hq),
              find?_pair_cons_neg _ _ _ (by simpa using hq)]
          exact ih

theorem dictLookup_dictInsert (d : List (Int × Option String)) (k k' : Int)
    (v : Option String) :
    dictLookup (dictInsert d k v) k' = if k' = k then some v else dictLookup d k' := by
  unfold dictInsert dictLookup
  cases hany : d.any (fun p => p.1 == k) with
  | true =>
      simp only [hany, if_true]
      by_cases hk : k' = k
      · subst hk
        rw [find?_map_update_self d k' v hany]
        simp
      · rw [find?_map_update_other d k k' v hk, if_neg hk]
  | false =>
      have hnone : d.find? (fun p => p.1 == k) = none := by
        rw [List.find?_eq_none]
        intro x hx hxk
        have : d.any (fun p => p.1 == k) = true := List.any_eq_true.mpr ⟨x, hx, hxk⟩
        rw [hany] at this
        exact Bool.false_ne_true this
      simp only [hany, Bool.false_eq_true, if_false]
      rw [List.find?_append]
      by_cases hk : k' = k
      · subst hk
        rw [hnone, find?_pair_cons_pos (k', v) [] k' (by simp)]
        simp
      · have h1 : ((k, v).1 == k') = false := by
          simp only [beq_eq_false_iff_ne, ne_eq]
          exact fun h => hk h.symm
        rw [find?_pair_cons_neg _ _ _ h1, List.find?_nil, Option.or_none, if_neg hk]

theorem dictLookup_foldl (ps : List (Int × Option String))
    (d : List (Int × Option String)) (k : Int) :
    dictLookup (ps.foldl (fun d p => dictInsert d p.1 p.2) d) k =
      match ps.reverse.find? (fun q => q.1 == k) with
      | some q => some q.2
      | none => dictLookup d k := by
  induction ps generalizing d with
  | nil => simp
  | cons p rest ih =>
      simp only [List.foldl_cons, List.reverse_cons, List.find?_append, ih]
      cases hfind : rest.reverse.find? (fun q => q.1 == k) with
      | some q => simp
      | none =>
          simp only [Option.none_or]
          rw [dictLookup_dictInsert]
          by_cases hk : p.1 = k
          · have : (p.1 == k) = true := by simpa using hk
            simp [List.find?_cons, this, hk]
          · have : (p.1 == k) = false := by simpa using hk
            have hk' : ¬(k = p.1) := fun h => hk h.symm
            simp [List.find?_cons, this, hk']

theorem buildLibrary_ok (entries : List Xml) (ps books : List (Int × Option String))
    (h : entries.map parseLockerItem = ps.map Except.ok) :
    buildLibrary books entries = .ok (ps.foldl (fun d p => dictInsert d p.1 p.2) books) := by
  induction entries generalizing ps books with
  | nil =>
      have hps : ps = [] := by cases ps <;> simp_all
      subst hps
      simp [buildLibrary]
  | cons e rest ih =>
      cases ps with
      | nil => simp at h
      | cons p ps' =>
          simp only [List.map_cons, List.cons.injEq] at h
          obtain ⟨h1, h2⟩ := h
          simp [buildLibrary, h1, List.foldl_cons, ih ps' (dictInsert books p.1 p.2) h2]

theorem cli_auth_loop_post (resps : List LoginResponse) (w w' : World)
    (h : cli_auth_loop w resps = .ok (some w')) : w'.tok.authenticated = true := by
  induction resps generalizing w with
  | nil =>
      unfold cli_auth_loop at h
      by_cases hw : w.tok.authenticated
      · simp only [hw, if_true, Except.ok.injEq, Option.some.injEq] at h
        subst h
        exact hw
      · simp [hw] at h
  | cons resp rest ih =>
      unfold cli_auth_loop at h
      by_cases hw : w.tok.authenticated
      · simp only [hw, if_true, Except.ok.injEq, Option.some.injEq] at h
        subst h
        exact hw
      · simp only [hw, if_false] at h
        cases hna : authenticate w resp with
        | error e => rw [hna] at h; exact absurd h (by simp)
        | ok r => rw [hna] at h; exact ih r.1 h

/-! ### Claim theorems -/

/-- C1: for every session state, `update_state` sets `authenticated` to
`false` exactly when the probe response contains the node
`./errors/error[@id='300_FEEngine']` (surfaced as `NotAuthenticatedError`),
sets it to `true` on any other successful probe response, and whenever the
method returns, it returns the updated flag value. -/
theorem C1_update_state_verdict (tok : Token) (r : Xml) :
    ((update_state tok (.response r)).1.authenticated = false ↔
       (r.findStep errorPath).isSome = true) ∧
    (∀ b : Bool, (update_state tok (.response r)).2 = .ok b →
       b = (update_state tok (.response r)).1.authenticated) := by
  cases he : (r.findStep errorPath).isSome with
  | true => simp [update_state, get_cchash, update_state_preprobe, he]
  | false =>
      cases hc : r.findStep cchashPath with
      | none => simp [update_state, get_cchash, update_state_preprobe, he, hc]
      | some n => simp [update_state, get_cchash, update_state_preprobe, he, hc]

/-- Witness for C1: on the `300_FEEngine` response the method returns the
updated flag, which is `false`. -/
theorem C1_update_state_verdict_witness :
    false = (update_state ⟨false, []⟩ (.response cchashErrResp)).1.authenticated :=
  (C1_update_state_verdict ⟨false, []⟩ cchashErrResp).2 false rfl

/-- C3: the rights-injection step appends exactly one new
`META-INF/rights.xml` member holding the license's rights manifest when the
archive contains `META-INF/encryption.xml`, adds no member when that marker
is absent, and in both cases leaves every existing member unaltered. -/
theorem C3_inject_rights_additive (z : List (String × String)) (rights : String) :
    ((namelist z).contains "META-INF/encryption.xml" = true →
       inject_rights z rights = z ++ [("META-INF/rights.xml", rights)]) ∧
    ((namelist z).contains "META-INF/encryption.xml" = false →
       inject_rights z rights = z) ∧
    (inject_rights z rights).take z.length = z := by
  unfold inject_rights writestr
  cases hm : (namelist z).contains "META-INF/encryption.xml" with
  | true => simp [hm, List.take_left]
  | false => simp [hm]

/-- Witness for C3: injecting into an archive holding the encryption
marker appends the rights member. -/
theorem C3_inject_rights_witness :
    inject_rights [("META-INF/encryption.xml", "enc")] "<rights/>" =
      [("META-INF/encryption.xml", "enc"), ("META-INF/rights.xml", "<rights/>")] :=
  ((C3_inject_rights_additive [("META-INF/encryption.xml", "enc")] "<rights/>").1
    (by decide)).trans rfl

/-- C4 (code bug): on a successful license whose download URL ends in
`.epub` and delivery id 12345, `download_book` saves the binary at
`"12345.epub"`, as the claim says — but the Python return value is `None`
(the bare `return` on the non-epub path and the fall-through end), not the
path the docstring promises. -/
theorem C4_download_book_eval :
    download_book ⟨true, []⟩ 12345 licRootOk [("mimetype", "application/epub+zip")] =
      ⟨some ("12345.epub", [("mimetype", "application/epub+zip")]), .ok none⟩ := by
  rfl

/-- C9: `update_state` leaves the credential store's cookies and the
persisted cookie file unchanged under every probe outcome: only the
`authenticated` flag may change, and no save occurs. -/
theorem C9_update_state_frame (w : World) (o : ProbeOutcome) :
    (update_stateW w o).1.tok.cookies = w.tok.cookies ∧
    (update_stateW w o).1.storeFile = w.storeFile := by
  unfold update_stateW update_state update_state_preprobe
  cases get_cchash o with
  | ok v => simp
  | error e => cases e <;> simp

/-- C2: a license response whose item's error child carries a non-empty
`errorDetails` attribute makes `get_license` raise `ServerError` with
exactly that string, and makes `download_book` for that delivery id raise
the same `ServerError` while creating no output file; when `errorDetails`
is the empty string, `get_license` returns the `License` without error. -/
theorem C2_license_error_surfaced (tok : Token) (root item errNode : Xml)
    (id : Int) (content : List (String × String)) (msg : String)
    (hauth : tok.authenticated = true)
    (hitem : root.findStep itemPath = some item)
    (herr : item.findStep [⟨"error", none⟩] = some errNode) :
    (errNode.get "errorDetails" = some msg → msg ≠ "" →
       get_license tok root = .error (.serverError (some msg)) ∧
       download_book tok id root content =
         ⟨none, .error (.serverError (some msg))⟩) ∧
    (errNode.get "errorDetails" = some "" →
       ∀ u i l : Xml,
         item.findStep [⟨"eBookUrl", none⟩] = some u →
         item.findStep [⟨"infoDocUrl", none⟩] = some i →
         item.findStep [⟨"license", none⟩] = some l →
         get_license tok root = .ok ⟨u.text, i.text, l.text⟩) := by
  constructor
  · intro hmsg hne
    have hgl : get_license tok root = .error (.serverError (some msg)) := by
      simp [get_license, hauth, hitem, herr, hmsg, hne]
    exact ⟨hgl, by simp [download_book, hgl]⟩
  · intro hempty u i l hu hi hl
    simp [get_license, hauth, hitem, herr, hempty, hu, hi, hl]

/-- Witness for C2: the end-to-end `Title not available` scenario. -/
theorem C2_license_error_witness :
    get_license ⟨true, []⟩ licRootErr =
      .error (.serverError (some "Title not available")) ∧
    download_book ⟨true, []⟩ 12345 licRootErr [] =
      ⟨none, .error (.serverError (some "Title not available"))⟩ :=
  (C2_license_error_surfaced ⟨true, []⟩ licRootErr licItemErr licErrNode 12345 []
    "Title not available" rfl rfl rfl).1 rfl (by decide)

/-- C10: when the item's error child lacks the `errorDetails` attribute
entirely, `get_license` raises `ServerError` carrying the absent (`None`)
value rather than returning a `License`; the success path requires the
attribute to be present and equal exactly to the empty string. -/
theorem C10_absent_attribute_raises (tok : Token) (root item errNode : Xml)
    (hauth : tok.authenticated = true)
    (hitem : root.findStep itemPath = some item)
    (herr : item.findStep [⟨"error", none⟩] = some errNode) :
    (errNode.get "errorDetails" = none →
       get_license tok root = .error (.serverError none)) ∧
    (∀ lic : License, get_license tok root = .ok lic →
       errNode.get "errorDetails" = some "") := by
  constructor
  · intro habs
    simp [get_license, hauth, hitem, herr, habs]
  · intro lic hok
    by_cases hed : errNode.get "errorDetails" = some ""
    · exact hed
    · exfalso
      have : get_license tok root = .error (.serverError (errNode.get "errorDetails")) := by
        simp [get_license, hauth, hitem, herr, hed]
      rw [this] at hok
      exact absurd hok (by simp)

/-- Witness for C10: a present item whose error child has no attributes. -/
theorem C10_absent_attribute_witness :
    get_license ⟨true, []⟩ licRootNoAttr = .error (.serverError none) :=
  (C10_absent_attribute_raises ⟨true, []⟩ licRootNoAttr licItemNoAttr licBareErrNode
    rfl rfl rfl).1 rfl

/-- C5: `get_library` raises `NotAuthenticatedError` on an unauthenticated
session; otherwise, when every sync-response `LockerItem` entry parses, it
returns the dictionary mapping each entry's integer `DeliveryId` to its
title text, built with last-write-wins overwrite on a repeated id: the
lookup of each key is exactly the last matching entry's title. -/
theorem C5_get_library_mapping (tok : Token) (root : Xml)
    (ps : List (Int × Option String))
    (hps : (root.findallSteps bookPath).map parseLockerItem = ps.map Except.ok) :
    (tok.authenticated = false → get_library tok root = .error .notAuthenticated) ∧
    (tok.authenticated = true →
       get_library tok root = .ok (ps.foldl (fun d p => dictInsert d p.1 p.2) []) ∧
       ∀ k : Int,
         dictLookup (ps.foldl (fun d p => dictInsert d p.1 p.2) []) k =
           (ps.reverse.find? (fun q => q.1 == k)).map (fun q => q.2)) := by
  constructor
  · intro h
    simp [get_library, h]
  · intro h
    constructor
    · have := buildLibrary_ok (root.findallSteps bookPath) ps [] hps
      simpa [get_library, h] using this
    · intro k
      rw [dictLookup_foldl]
      cases hf : ps.reverse.find? (fun q => q.1 == k) <;> simp [dictLookup]

/-- Witness for C5: the three-entry sync response with a repeated id. -/
theorem C5_get_library_witness :
    get_library ⟨true, []⟩ syncRoot =
      .ok (syncPairs.foldl (fun d p => dictInsert d p.1 p.2) []) :=
  ((C5_get_library_mapping ⟨true, []⟩ syncRoot syncPairs rfl).2 rfl).1

/-- C6: a login response whose `signedIn` flag is `"0"` makes
`authenticate` return `false` with the flag, the cookie jar and the
persisted store left exactly as they were, and the persisted store is
written only by a successful login. -/
theorem C6_authenticate_failure_frame (w : World) (resp : LoginResponse) (node : Xml) :
    (resp.root.findStep signedInPath = some node → node.text = some "0" →
       authenticate w resp = .ok (w, false)) ∧
    (∀ (w' : World) (b : Bool), authenticate w resp = .ok (w', b) →
       w'.storeFile ≠ w.storeFile → b = true) := by
  constructor
  · intro hn ht
    have h0 : pyInt "0" = some 0 := rfl
    simp [authenticate, hn, ht, h0]
  · intro w' b hok hne
    unfold authenticate at hok
    split at hok
    · exact absurd hok (by simp)
    · split at hok
      · exact absurd hok (by simp)
      · split at hok
        · exact absurd hok (by simp)
        · split at hok
          · simp only [Except.ok.injEq, Prod.mk.injEq] at hok
            exact hok.2.symm
          · simp only [Except.ok.injEq, Prod.mk.injEq] at hok
            obtain ⟨hw, _⟩ := hok
            exact absurd (by rw [← hw]) hne

/-- Witness for C6: a failed login leaves a concrete world untouched. -/
theorem C6_authenticate_failure_witness :
    authenticate ⟨⟨false, ["old"]⟩, some ["old"]⟩ loginFail =
      .ok (⟨⟨false, ["old"]⟩, some ["old"]⟩, false) :=
  (C6_authenticate_failure_frame ⟨⟨false, ["old"]⟩, some ["old"]⟩ loginFail
    loginFailNode).1 rfl rfl

/-- C7: no vendor-protocol call other than login happens against an
unauthenticated session: `get_library`, `get_license` and `save_file`
raise `NotAuthenticatedError` independently of any response when the flag
is false; the cchash probe inside `update_state` runs only after the
method has set the flag true; and the CLI gate ahead of the `library`,
`download` and `cchash` operations only hands over a session whose flag is
true. -/
theorem C7_no_unauthenticated_calls :
    (∀ (tok : Token) (root : Xml), tok.authenticated = false →
       get_library tok root = .error .notAuthenticated ∧
       get_license tok root = .error .notAuthenticated ∧
       save_file tok = .error .notAuthenticated) ∧
    (∀ tok : Token, (update_state_preprobe tok).authenticated = true) ∧
    (∀ (w : World) (script : Bool) (resps : List LoginResponse) (w' : World),
       cli_require_auth w script resps = .ok (some w') →
       w'.tok.authenticated = true) := by
  refine ⟨fun tok root h => ⟨?_, ?_, ?_⟩, fun tok => rfl, ?_⟩
  · simp [get_library, h]
  · simp [get_license, h]
  · simp [save_file, h]
  · intro w script resps w' h
    unfold cli_require_auth at h
    by_cases hw : w.tok.authenticated = true
    · rw [if_pos hw] at h
      simp only [Except.ok.injEq, Option.some.injEq] at h
      subst h
      exact hw
    · rw [if_neg hw] at h
      by_cases hs : script = true
      · rw [if_pos hs] at h
        exact absurd h (by simp)
      · rw [if_neg hs] at h
        exact cli_auth_loop_post _ _ _ h

/-- Witness for C7: an unauthenticated token and the sync fixture. -/
theorem C7_no_unauthenticated_calls_witness :
    get_library ⟨false, []⟩ syncRoot = .error .notAuthenticated :=
  (C7_no_unauthenticated_calls.1 ⟨false, []⟩ syncRoot rfl).1

/-- C8 counterexample: a session constructed from a present persisted
store whose probe fails at the transport level completes with
`authenticated = true`, although the probe confirmed nothing — the
optimistic flag set before the probe survives because `load` swallows the
`OSError`. -/
theorem C8_transport_failure_cex :
    AuthenticationToken_init (some ["c"]) .transportFailure =
      .ok ⟨⟨true, ["c"]⟩, some ["c"]⟩ ∧
    probeConfirmsValidity .transportFailure = false :=
  ⟨rfl, rfl⟩

/-- C8 amended: construction from an absent store leaves the flag false;
construction from a present store runs the probe, and when the probe
returns a response the flag equals the probe's verdict (false exactly when
the `300_FEEngine` error node is present); but on a transport failure the
flag is left true, the optimistic value set before the probe. -/
theorem C8_load_flag (cs : List String) (o : ProbeOutcome) (r : Xml) :
    (AuthenticationToken_init none o = .ok ⟨⟨false, []⟩, none⟩) ∧
    (AuthenticationToken_init (some cs) .transportFailure =
       .ok ⟨⟨true, cs⟩, some cs⟩) ∧
    (∀ w : World, AuthenticationToken_init (some cs) (.response r) = .ok w →
       w.tok.authenticated = !(r.findStep errorPath).isSome) := by
  refine ⟨rfl, rfl, ?_⟩
  intro w h
  cases he : (r.findStep errorPath).isSome with
  | true =>
      simp [AuthenticationToken_init, load, update_stateW, update_state,
        update_state_preprobe, get_cchash, Except.map, he] at h
      subst h
      simp [he]
  | false =>
      cases hc : r.findStep cchashPath with
      | none =>
          simp [AuthenticationToken_init, load, update_stateW, update_state,
            update_state_preprobe, get_cchash, Except.map, he, hc] at h
      | some n =>
          simp [AuthenticationToken_init, load, update_stateW, update_state,
            update_state_preprobe, get_cchash, Except.map, he, hc] at h
          subst h
          simp [he]

/-- Witness for C8's amended theorem: a probe response carrying the error
node yields a constructed session whose flag is false. -/
theorem C8_load_flag_witness :
    (⟨⟨false, ["c"]⟩, some ["c"]⟩ : World).tok.authenticated =
      !(cchashErrResp.findStep errorPath).isSome :=
  (C8_load_flag ["c"] .transportFailure cchashErrResp).2.2
    ⟨⟨false, ["c"]⟩, some ["c"]⟩ rfl

end Inookulate
